import Mathlib

/-!
Verification of the synchronization core of the `f-sync` repository
(a Fitbit-to-Strava activity bridge).

The Python sources are shallowly embedded as Lean definitions:

* pure helpers (`fitbit_validate_signature`, the webhook filtering in
  `webhook_link`, the GET verification branch) become pure functions;
* effectful code (`upload_latest_activities`, `process_activity`, the
  OAuth completion routes, the token-refresh decorator) is modelled by
  explicit state passing over environments that record the responses the
  remote providers and the database would return;
* `bytes` values are `List Nat` with entries below 256, HTTP status codes
  are `Nat`, SQL timestamps and parsed Python `datetime` values are `Int`
  instants, and ISO-8601 date/time strings kept as strings by the code
  stay `String` (the code compares them lexicographically, as does Lean).

Bytes, words and digests use plain `Nat` arithmetic with explicit
`% 2 ^ 32` / `% 256` reductions where Python's fixed-width semantics
matter.
-/

/-! ## HMAC-SHA1 / base64 (`fitbit_api.fitbit_validate_signature`)

`fitbit_validate_signature` calls `hmac.digest(key, body, hashlib.sha1)`
and `base64.b64encode` from the Python standard library; those are
embedded here following their published specifications (FIPS 180-1 for
SHA-1, RFC 2104 for HMAC, RFC 4648 for base64). -/

/-- 32-bit left rotation by `k` (for `x < 2 ^ 32` and `0 < k < 32`):
the low `32 - k` bits are shifted up and the high `k` bits wrap to the
bottom. -/
def rotl (k x : Nat) : Nat :=
  x % 2 ^ (32 - k) * 2 ^ k + x / 2 ^ (32 - k)

/-- Truncation to a 32-bit word. -/
def w32 (x : Nat) : Nat := x % 4294967296

/-- Big-endian bytes of a 32-bit word. -/
def wordToBytes (w : Nat) : List Nat :=
  [w / 16777216 % 256, w / 65536 % 256, w / 256 % 256, w % 256]

/-- Big-endian 8-byte encoding of the 64-bit message length. -/
def bytesBE8 (n : Nat) : List Nat :=
  [n / 2 ^ 56 % 256, n / 2 ^ 48 % 256, n / 2 ^ 40 % 256, n / 2 ^ 32 % 256,
   n / 2 ^ 24 % 256, n / 2 ^ 16 % 256, n / 2 ^ 8 % 256, n % 256]

/-- Group bytes into big-endian 32-bit words (length is a multiple of 4
whenever this is applied). -/
def bytesToWords : List Nat → List Nat
  | b0 :: b1 :: b2 :: b3 :: rest =>
      (b0 * 16777216 + b1 * 65536 + b2 * 256 + b3) :: bytesToWords rest
  | _ => []

/-- SHA-1 padding: a `0x80` byte, zero bytes up to 56 mod 64, then the
bit length as an 8-byte big-endian integer. -/
def sha1Pad (msg : List Nat) : List Nat :=
  msg ++ 128 :: List.replicate ((119 - msg.length % 64) % 64) 0 ++ bytesBE8 (8 * msg.length)

/-- Split a byte sequence into 64-byte chunks; the fuel argument (any
bound on the list length) keeps the recursion structural. -/
def chunksAux : Nat → List Nat → List (List Nat)
  | _, [] => []
  | 0, _ :: _ => []
  | fuel + 1, x :: xs => ((x :: xs).take 64) :: chunksAux fuel ((x :: xs).drop 64)

/-- Split a byte sequence into 64-byte chunks. -/
def chunks64 (l : List Nat) : List (List Nat) := chunksAux l.length l

/-- One step of the SHA-1 message-schedule extension.  The schedule is
kept in reverse (most recent word first), so `w[i-3]`, `w[i-8]`,
`w[i-14]`, `w[i-16]` are at positions 2, 7, 13, 15. -/
def sha1ExtendStep (w : List Nat) : Nat :=
  rotl 1 (((w.getD 2 0 ^^^ w.getD 7 0) ^^^ w.getD 13 0) ^^^ w.getD 15 0)

/-- Extend the (reversed) 16-word schedule by `n` further words. -/
def sha1Extend : Nat → List Nat → List Nat
  | 0, w => w
  | n + 1, w => sha1Extend n (sha1ExtendStep w :: w)

/-- The SHA-1 round function for round `i`. -/
def sha1F (i b c d : Nat) : Nat :=
  if i < 20 then b &&& c ||| (b ^^^ 4294967295) &&& d
  else if i < 40 then (b ^^^ c) ^^^ d
  else if i < 60 then b &&& c ||| b &&& d ||| c &&& d
  else (b ^^^ c) ^^^ d

/-- The SHA-1 round constant for round `i`. -/
def sha1K (i : Nat) : Nat :=
  if i < 20 then 1518500249
  else if i < 40 then 1859775393
  else if i < 60 then 2400959708
  else 3395469782

/-- One SHA-1 round: update the five-word working state with the
indexed schedule word. -/
def sha1Round (st : Nat × Nat × Nat × Nat × Nat) (iw : Nat × Nat) :
    Nat × Nat × Nat × Nat × Nat :=
  (w32 (rotl 5 st.1 + sha1F iw.1 st.2.1 st.2.2.1 st.2.2.2.1 + st.2.2.2.2 + sha1K iw.1 + iw.2),
   st.1, rotl 30 st.2.1, st.2.2.1, st.2.2.2.1)

/-- Compress one 64-byte chunk into the running hash state. -/
def sha1Chunk (h : Nat × Nat × Nat × Nat × Nat) (chunk : List Nat) :
    Nat × Nat × Nat × Nat × Nat :=
  let ws := (sha1Extend 64 (bytesToWords chunk).reverse).reverse
  let r := ws.enum.foldl sha1Round h
  (w32 (h.1 + r.1), w32 (h.2.1 + r.2.1), w32 (h.2.2.1 + r.2.2.1),
   w32 (h.2.2.2.1 + r.2.2.2.1), w32 (h.2.2.2.2 + r.2.2.2.2))

/-- SHA-1 of a byte sequence, as its 20-byte big-endian digest. -/
def sha1 (msg : List Nat) : List Nat :=
  let h := (chunks64 (sha1Pad msg)).foldl sha1Chunk
    (1732584193, 4023233417, 2562383102, 271733878, 3285377520)
  wordToBytes h.1 ++ wordToBytes h.2.1 ++ wordToBytes h.2.2.1 ++
    wordToBytes h.2.2.2.1 ++ wordToBytes h.2.2.2.2

/-- HMAC-SHA1 (`hmac.digest(key, msg, hashlib.sha1)`): hash an
over-long key, zero-pad to the 64-byte block size, then the nested
inner (`0x36`) / outer (`0x5c`) hashes. -/
def hmacSha1 (key msg : List Nat) : List Nat :=
  let k0 := if 64 < key.length then sha1 key else key
  let k := k0 ++ List.replicate (64 - k0.length) 0
  sha1 (k.map (fun b => b ^^^ 92) ++ sha1 (k.map (fun b => b ^^^ 54) ++ msg))

/-- The standard base64 alphabet. -/
def b64Alphabet : List Char :=
  "ABCDEFGHIJKLMNOPQRSTUVWXYZabcdefghijklmnopqrstuvwxyz0123456789+/".toList

/-- Character for a 6-bit group. -/
def b64Char (n : Nat) : Char := b64Alphabet.getD n 'A'

/-- base64 encoding of a byte sequence (`base64.b64encode`), with `=`
padding for a 1- or 2-byte tail. -/
def b64encodeList : List Nat → List Char
  | b0 :: b1 :: b2 :: rest =>
      b64Char (b0 / 4) :: b64Char (b0 % 4 * 16 + b1 / 16) ::
        b64Char (b1 % 16 * 4 + b2 / 64) :: b64Char (b2 % 64) :: b64encodeList rest
  | [b0, b1] => [b64Char (b0 / 4), b64Char (b0 % 4 * 16 + b1 / 16), b64Char (b1 % 16 * 4), '=']
  | [b0] => [b64Char (b0 / 4), b64Char (b0 % 4 * 16), '=', '=']
  | [] => []

/-- base64 encoding as a string. -/
def b64encode (l : List Nat) : String := String.mk (b64encodeList l)

/-- `fitbit_api.fitbit_validate_signature`: base64 of the HMAC-SHA1 of
the raw request body, keyed by the client secret's UTF-8 bytes followed
by `&` (byte 38), compared with `==` against the `X-Fitbit-Signature`
header; a missing header is `None`, and Python's `str == None` is
`False`.  `secret` is the UTF-8 byte sequence of
`os.getenv("FITBIT_CLIENT_SECRET")`. -/
def fitbit_validate_signature (secret body : List Nat) (header : Option String) : Bool :=
  let value := b64encode (hmacSha1 (secret ++ [38]) body)
  match header with
  | none => false
  | some s => value == s

/-! ## Webhook ingestion (`app.webhook_link`, POST branch)

`json.loads(request.data)` is abstracted: the parsed message list is a
parameter.  Each message is a JSON object read with `dict.get`, so every
field is optional. -/

/-- One entry of a Fitbit notification batch. -/
structure WebhookMessage where
  collectionType : Option String
  ownerType : Option String
  ownerId : Option String
deriving DecidableEq

/-- The `set(...)` comprehension of `webhook_link`: owner ids of the
messages whose `collectionType` is `"activities"` and whose `ownerType`
is `"user"`.  The Python `set` is modelled as a deduplicated list. -/
def notification_ids (msgs : List WebhookMessage) : List (Option String) :=
  (msgs.filterMap fun m =>
    if m.collectionType = some "activities" ∧ m.ownerType = some "user"
    then some m.ownerId else none).dedup

/-- The dispatch loop of `webhook_link`: one
`upload_latest_activities.delay(fitbit_id)` per member of the id set
that `is not None`.  The result lists the user ids of the scheduled
reconciliation tasks. -/
def scheduled_tasks (msgs : List WebhookMessage) : List String :=
  (notification_ids msgs).filterMap id

/-- The POST branch of `webhook_link`: on a valid signature, schedule
the tasks and answer 204; otherwise schedule nothing and answer 400.
`msgs` stands for `json.loads(request.data)` applied to `body`. -/
def webhook_post (secret body : List Nat) (header : Option String)
    (msgs : List WebhookMessage) : List String × Nat :=
  if fitbit_validate_signature secret body header then (scheduled_tasks msgs, 204)
  else ([], 400)

/-- The GET branch of `webhook_link`: `request.args.get("verify")`
(`None` when absent) compared with
`os.getenv("FITBIT_SUBSCRIPTION_VERIFICATION_CODE")` (`None` when
unset); Python's `==` makes `None == None` true. -/
def webhook_verification (verify_param code_env : Option String) : Nat :=
  if verify_param = code_env then 204 else 404

/-! ## Reconciliation engine (`app.upload_latest_activities`,
`app.process_activity`)

Remote responses and the wall clock are inputs, collected in `SyncEnv`;
the persisted watermark `user_activity.fitbit_latest_activity_date` is
threaded explicitly.  Parsed `datetime` instants
(`datetime.datetime.fromisoformat(...).replace(tzinfo=None)` and the SQL
timestamp column) are `Int`; the ISO strings the code keeps as strings
(`latest_strava_date`, `start_date`, `afterDate`) remain `String`. -/

/-- One Fitbit activity as consumed by the engine: `logId`, `logType`,
`source.trackerFeatures`, and its `startTime` field both as the raw ISO
string and as the parsed naive-datetime instant. -/
structure FitbitActivity where
  logId : Nat
  logType : String
  trackerFeatures : List String
  startTimeIso : String
  startTime : Int
deriving DecidableEq

/-- Python's `max` on two ISO-format strings (lexicographic, as the
code's NOTE observes). -/
def pymax (a b : String) : String := if a < b then b else a

/-- Python's `str.rstrip("Z")`: remove every trailing `Z`. -/
def rstripZ (s : String) : String :=
  String.mk ((s.data.reverse.dropWhile fun c => c = 'Z').reverse)

/-- The remote world one reconciliation run interacts with: statuses
and payloads of the `get_fitbit_most_recent_activity`,
`get_strava_most_recent_activity`, `get_fitbit_activities_after_date`,
`get_fitbit_activity_tcx` and `strava_activity_upload` calls, plus
`(datetime.date.today() + timedelta(days=-3)).isoformat()`, which reads
the clock. -/
structure SyncEnv where
  mostRecentStatus : Nat
  mostRecentActivities : List FitbitActivity
  stravaStatus : Nat
  stravaStartDates : List String
  todayMinus3 : String
  afterStatus : String → Nat
  afterActivities : String → List FitbitActivity
  tcxStatus : Nat → Nat
  uploadStatus : Nat → Nat

/-- `app.process_activity`: fetch the activity's `.tcx` export (must be
200), upload it to Strava (must be 201); `true` only when both
succeed. -/
def process_activity (env : SyncEnv) (log_id : Nat) : Bool :=
  if env.tcxStatus log_id ≠ 200 then false
  else if env.uploadStatus log_id ≠ 201 then false
  else true

/-- The loop state of `upload_latest_activities`:
`successful_fitbit_upload_date` plus instrumentation counting the
`process_activity` calls and the successful ones. -/
structure LoopState where
  successful : Option Int
  attempted : Nat
  succeeded : Nat
deriving DecidableEq

/-- One iteration of the upload loop: skip non-`tracker` activities,
skip activities without the `GPS` tracker feature, otherwise attempt
the upload and record its start time on success. -/
def activityStep (env : SyncEnv) (st : LoopState) (a : FitbitActivity) : LoopState :=
  if a.logType ≠ "tracker" then st
  else if "GPS" ∉ a.trackerFeatures then st
  else
    let ok := process_activity env a.logId
    ⟨if ok then some a.startTime else st.successful,
     st.attempted + 1,
     st.succeeded + if ok then 1 else 0⟩

/-- The full upload loop over the fetched activity list. -/
def uploadLoop (env : SyncEnv) (acts : List FitbitActivity) : LoopState :=
  acts.foldl (activityStep env) ⟨none, 0, 0⟩

/-- Observable outcome of one `upload_latest_activities` run:
the watermark after the run, whether the `UPDATE user_activity` ran,
the upload counters, whether the Strava most-recent call was reached,
the `afterDate` passed to `get_fitbit_activities_after_date` (when that
call was reached), and the activity list that call returned. -/
structure RunResult where
  watermark : Int
  wrote : Bool
  succeeded : Nat
  attempted : Nat
  stravaFetched : Bool
  afterDateUsed : Option String
  fetched : List FitbitActivity
deriving DecidableEq

/-- The `latest_strava_date` computation: the default 3-day horizon,
or — when the Strava response is non-empty — the (lexicographic)
maximum of that horizon and the most recent Strava activity's
`start_date` with trailing `Z` stripped. -/
def syncLowerBound (env : SyncEnv) : String :=
  match env.stravaStartDates with
  | [] => env.todayMinus3
  | s :: _ => pymax env.todayMinus3 (rstripZ s)

/-- The tail of `upload_latest_activities` once the after-date fetch is
reached: fetch activities strictly after `syncLowerBound`, run the
upload loop, and — when `successful_fitbit_upload_date is not None` —
write `latest` (the start time of the most recent activity observed at
the beginning of the run). -/
def runAfterFetch (env : SyncEnv) (wm latest : Int) : RunResult :=
  if env.afterStatus (syncLowerBound env) ≠ 200 then
    ⟨wm, false, 0, 0, true, some (syncLowerBound env), env.afterActivities (syncLowerBound env)⟩
  else if (uploadLoop env (env.afterActivities (syncLowerBound env))).successful = none then
    ⟨wm, false, (uploadLoop env (env.afterActivities (syncLowerBound env))).succeeded,
     (uploadLoop env (env.afterActivities (syncLowerBound env))).attempted, true,
     some (syncLowerBound env), env.afterActivities (syncLowerBound env)⟩
  else
    ⟨latest, true, (uploadLoop env (env.afterActivities (syncLowerBound env))).succeeded,
     (uploadLoop env (env.afterActivities (syncLowerBound env))).attempted, true,
     some (syncLowerBound env), env.afterActivities (syncLowerBound env)⟩

/-- `app.upload_latest_activities` for one user, given the stored
watermark `wm` (the `fitbit_latest_activity_date` row value).  Early
returns: Fitbit most-recent call not 200; empty activity list; most
recent start time equal to the watermark; Strava call not 200.
Otherwise continue with `runAfterFetch`. -/
def upload_latest_activities (env : SyncEnv) (wm : Int) : RunResult :=
  if env.mostRecentStatus ≠ 200 then ⟨wm, false, 0, 0, false, none, []⟩
  else
    match env.mostRecentActivities with
    | [] => ⟨wm, false, 0, 0, false, none, []⟩
    | a :: _ =>
      if a.startTime = wm then ⟨wm, false, 0, 0, false, none, []⟩
      else if env.stravaStatus ≠ 200 then ⟨wm, false, 0, 0, true, none, []⟩
      else runAfterFetch env wm a.startTime

/-! ## Registration (`database_utils`, `app.fitbit_oauth_verify`,
`app.strava_oauth_verify`)

The two database tables keyed by `fitbit_id`, with the token columns as
per-user maps. -/

namespace Registration

/-- The persistent store: rows of `user_tokens` and `user_activity`
(`init_db.py`), with the token column pairs of existing rows. -/
structure DB where
  user_tokens : List String
  user_activity : List String
  fitbit_tokens : String → Option (String × String)
  strava_tokens : String → Option (String × String)

/-- A store with no registered users. -/
def emptyDB : DB := ⟨[], [], fun _ => none, fun _ => none⟩

/-- `database_utils.database_user_check`: `COUNT(1) > 0` on
`user_tokens`. -/
def database_user_check (db : DB) (fitbit_id : String) : Bool :=
  db.user_tokens.contains fitbit_id

/-- The exception raised by a failing SQL `INSERT`. -/
inductive InsertError
  | notNullViolation
deriving DecidableEq

/-- `database_utils.database_create_user`, run against the schema of
`init_db.py`: when the user is already present, no insert happens and
`False` is returned.  When the user is absent, the function executes
`INSERT INTO user_tokens (fitbit_id) VALUES (%s)` — but `user_tokens`
declares `fitbit_access_token`, `fitbit_refresh_token`,
`strava_access_token` and `strava_refresh_token` `NOT NULL` with no
defaults, so psycopg2 raises a not-null violation before `commit`; the
pooled connection is returned mid-transaction and rolled back, leaving
the store unchanged.  The error path is the `Except.error` case. -/
def database_create_user (db : DB) (fitbit_id : String) :
    Except InsertError (DB × Bool) :=
  if database_user_check db fitbit_id then .ok (db, false)
  else .error .notNullViolation

/-- `fitbit_api.update_fitbit_tokens`: SQL `UPDATE` of the Fitbit token
columns (a no-op when the row does not exist). -/
def update_fitbit_tokens (db : DB) (access refresh fitbit_id : String) : DB :=
  if database_user_check db fitbit_id then
    { db with
        fitbit_tokens := fun i =>
          if i = fitbit_id then some (access, refresh) else db.fitbit_tokens i }
  else db

/-- `strava_api.update_strava_tokens`: SQL `UPDATE` of the Strava token
columns (a no-op when the row does not exist). -/
def update_strava_tokens (db : DB) (access refresh fitbit_id : String) : DB :=
  if database_user_check db fitbit_id then
    { db with
        strava_tokens := fun i =>
          if i = fitbit_id then some (access, refresh) else db.strava_tokens i }
  else db

/-- Python truthiness of an optional string: `None` and `""` are
falsy. -/
def falsy : Option String → Bool
  | none => true
  | some s => s == ""

/-- Request/session/remote inputs of `app.fitbit_oauth_verify`. -/
structure FitbitVerifyEnv where
  hasErrorParam : Bool
  sessionState : Option String
  stateParam : Option String
  sessionPkce : Option String
  hasCodeParam : Bool
  tokenStatus : Nat
  tokenAccess : Option String
  tokenRefresh : Option String
  tokenUserId : Option String
deriving DecidableEq

/-- Request/session/remote inputs of `app.strava_oauth_verify`. -/
structure StravaVerifyEnv where
  hasErrorParam : Bool
  sessionState : Option String
  stateParam : Option String
  hasCodeParam : Bool
  sessionFitbitId : Option String
  tokenStatus : Nat
  tokenAccess : Option String
  tokenRefresh : Option String
  subscribeStatus : Nat
deriving DecidableEq

/-- How an OAuth completion route terminates.  `keyError` models the
uncaught exception from `request.args["state"]` when the parameter is
absent while the session state is set; `integrityError` the uncaught
psycopg2 constraint violation escaping `database_create_user`. -/
inductive FlowOutcome
  | redirectIndex
  | abort401
  | keyError
  | integrityError
  | redirectStrava (fitbit_id : String)
  | redirectAuthSuccess
deriving DecidableEq

/-- `app.fitbit_oauth_verify`: validation chain, Fitbit code exchange,
then `database_create_user` — whose insert of a bare `fitbit_id` raises
against the `NOT NULL` schema for a first-time user, killing the
request with the store untouched — then `update_fitbit_tokens` and a
redirect to the Strava authorization route. -/
def fitbit_oauth_verify (env : FitbitVerifyEnv) (db : DB) : FlowOutcome × DB :=
  if env.hasErrorParam then (.redirectIndex, db)
  else if env.sessionState = none then (.abort401, db)
  else if env.stateParam = none then (.keyError, db)
  else if env.stateParam ≠ env.sessionState then (.abort401, db)
  else if env.sessionPkce = none then (.abort401, db)
  else if ¬ env.hasCodeParam then (.abort401, db)
  else if env.tokenStatus ≠ 200 then (.abort401, db)
  else if falsy env.tokenAccess then (.abort401, db)
  else if falsy env.tokenRefresh then (.abort401, db)
  else if falsy env.tokenUserId then (.abort401, db)
  else
    match database_create_user db (env.tokenUserId.getD "") with
    | .error _ => (.integrityError, db)
    | .ok q =>
        (.redirectStrava (env.tokenUserId.getD ""),
         update_fitbit_tokens q.1 (env.tokenAccess.getD "") (env.tokenRefresh.getD "")
           (env.tokenUserId.getD ""))

/-- `app.strava_oauth_verify`: validation chain, Strava code exchange,
`update_strava_tokens`, then the webhook subscription request (201
created and 200 already-subscribed both succeed; anything else aborts
after the tokens were already written). -/
def strava_oauth_verify (env : StravaVerifyEnv) (db : DB) : FlowOutcome × DB :=
  if env.hasErrorParam then (.redirectIndex, db)
  else if env.sessionState = none then (.abort401, db)
  else if env.stateParam = none then (.keyError, db)
  else if env.stateParam ≠ env.sessionState then (.abort401, db)
  else if ¬ env.hasCodeParam then (.abort401, db)
  else if env.sessionFitbitId = none then (.abort401, db)
  else if env.tokenStatus ≠ 200 then (.abort401, db)
  else if falsy env.tokenAccess then (.abort401, db)
  else if falsy env.tokenRefresh then (.abort401, db)
  else if env.subscribeStatus = 201 ∨ env.subscribeStatus = 200 then
    (.redirectAuthSuccess,
     update_strava_tokens db (env.tokenAccess.getD "") (env.tokenRefresh.getD "")
       (env.sessionFitbitId.getD ""))
  else
    (.abort401,
     update_strava_tokens db (env.tokenAccess.getD "") (env.tokenRefresh.getD "")
       (env.sessionFitbitId.getD ""))

end Registration

/-! ## Token manager (`fitbit_api.fitbit_token_refresh_decorator`,
`strava_api.strava_token_refresh_decorator`)

The two decorators are textually identical up to the provider; they are
embedded once.  The state is the access/refresh column pair of the one
`user_tokens` row involved; every wrapped API function re-reads the
current access token from the database, so the environment maps the
access token in use to the response status of the wrapped call. -/

namespace TokenManager

/-- The stored access/refresh pair for one provider and user. -/
structure StoredTokens where
  access : String
  refresh : String
deriving DecidableEq

/-- The token endpoint's response to the refresh exchange. -/
structure RefreshResponse where
  status : Nat
  accessField : Option String
  refreshField : Option String
deriving DecidableEq

/-- Environment of one decorated invocation: the wrapped call's status
as a function of the access token it runs with, and the refresh
exchange's response. -/
structure TMEnv where
  callStatus : String → Nat
  refreshResp : RefreshResponse

/-- How the refresh path fails (spec taxonomy name
`CredentialRefreshFailure`): `httpError` is the
`requests.exceptions.HTTPError` raised on a non-200 exchange status,
`keyError` the `KeyError` raised by `update_..._tokens` when
`access_token` or `refresh_token` is missing from the 200 response. -/
inductive CredentialRefreshFailure
  | httpError (status : Nat)
  | keyError
deriving DecidableEq

/-- `update_fitbit_tokens` / `update_strava_tokens` as called from the
refresh path: read both fields of the response body (raising `KeyError`
before any database write when one is absent), then store the new
pair. -/
def update_tokens (resp : RefreshResponse) :
    Except CredentialRefreshFailure StoredTokens :=
  match resp.accessField with
  | none => .error .keyError
  | some a =>
    match resp.refreshField with
    | none => .error .keyError
    | some r => .ok ⟨a, r⟩

/-- `fitbit_refresh_tokens` / `strava_refresh_tokens`: on a 200 from
the token endpoint, persist the new pair; otherwise raise
`HTTPError`. -/
def refresh_tokens (env : TMEnv) :
    Except CredentialRefreshFailure StoredTokens :=
  if env.refreshResp.status = 200 then update_tokens env.refreshResp
  else .error (.httpError env.refreshResp.status)

/-- Observable outcome of one decorated invocation. -/
structure TMResult where
  result : Except CredentialRefreshFailure Nat
  tokens : StoredTokens
  callCount : Nat
  refreshAttempts : Nat
  persisted : Bool

/-- `refresh_api_call`: run the wrapped call; on a 401 perform the
single refresh exchange and re-run the call once with the freshly
stored access token; return whatever the second call yields. -/
def refresh_api_call (env : TMEnv) (t : StoredTokens) : TMResult :=
  if env.callStatus t.access = 401 then
    match refresh_tokens env with
    | .error e => ⟨.error e, t, 1, 1, false⟩
    | .ok t2 => ⟨.ok (env.callStatus t2.access), t2, 2, 1, true⟩
  else ⟨.ok (env.callStatus t.access), t, 1, 0, false⟩

end TokenManager

/-! ## Concrete instances for witnesses and counterexamples -/

/-- Witness environment for C1: the observed most recent activity
(start 7) is newer than both uploaded candidates; the first candidate
(start 3) uploads, the second one's export fetch fails. -/
def c1Env : SyncEnv :=
  ⟨200, [⟨3, "tracker", ["GPS"], "2024-01-06T10:00:00", 7⟩], 200, [], "2024-01-03",
   fun _ => 200,
   fun _ => [⟨1, "tracker", ["GPS"], "2024-01-04T10:00:00", 3⟩,
             ⟨2, "tracker", ["GPS"], "2024-01-05T10:00:00", 4⟩],
   fun i => if i = 2 then 500 else 200,
   fun _ => 201⟩

/-- Counterexample environment for C2: the provider's most recent
activity (start 5) is older than the stored watermark (10), and its
upload succeeds. -/
def c2Env : SyncEnv :=
  ⟨200, [⟨1, "tracker", ["GPS"], "2024-01-01T10:00:00", 5⟩], 200, [], "2023-12-29",
   fun _ => 200,
   fun _ => [⟨1, "tracker", ["GPS"], "2024-01-01T10:00:00", 5⟩],
   fun _ => 200, fun _ => 201⟩

/-- Witness environment for the amended C2: a fresh activity (start 7)
whose upload succeeds. -/
def c2wEnv : SyncEnv :=
  ⟨200, [⟨4, "tracker", ["GPS"], "2024-01-06T10:00:00", 7⟩], 200, [], "2024-01-03",
   fun _ => 200,
   fun _ => [⟨4, "tracker", ["GPS"], "2024-01-06T10:00:00", 7⟩],
   fun _ => 200, fun _ => 201⟩

/-- Witness environment for C3: the most recent activity's start time
equals the stored watermark 5. -/
def c3Env : SyncEnv :=
  ⟨200, [⟨1, "tracker", ["GPS"], "2024-01-01T10:00:00", 5⟩], 200, [], "2023-12-29",
   fun _ => 200,
   fun _ => [⟨1, "tracker", ["GPS"], "2024-01-01T10:00:00", 5⟩],
   fun _ => 200, fun _ => 201⟩

/-- Index of a character in the base64 alphabet (used to invert
`b64Char` on values below 64). -/
def b64val (c : Char) : Nat := b64Alphabet.indexOf c

/-- Failing input for C4: a Fitbit code exchange that succeeds for
user `u1` (no Strava step involved). -/
def c4Env : Registration.FitbitVerifyEnv :=
  ⟨false, some "st", some "st", some "pk", true, 200, some "fat", some "frt", some "u1"⟩

/-- A store whose `u1` row already exists (inserted out of band): the
only kind of state from which the Fitbit verification route can reach
its Strava redirect. -/
def c4dbExisting : Registration.DB :=
  ⟨["u1"], ["u1"], fun _ => none, fun _ => none⟩

/-- Witness batch for C6: two notifications for `U1`, one entry of a
different collection for `U2`, and one null owner. -/
def c6msgs : List WebhookMessage :=
  [⟨some "activities", some "user", some "U1"⟩,
   ⟨some "activities", some "user", some "U1"⟩,
   ⟨some "foods", some "user", some "U2"⟩,
   ⟨some "activities", some "user", none⟩]

/-- Witness environment for C7: the destination's most recent activity
(`2024-01-05...Z`) is later than the 3-day horizon (`2024-01-03`). -/
def c7Env : SyncEnv :=
  ⟨200, [⟨3, "tracker", ["GPS"], "2024-01-06T10:00:00", 7⟩], 200,
   ["2024-01-05T00:00:00Z"], "2024-01-03",
   fun _ => 200,
   fun _ => [⟨3, "tracker", ["GPS"], "2024-01-06T10:00:00", 7⟩],
   fun _ => 200, fun _ => 201⟩

/-- Witness environment for C8: the wrapped call answers 401 with every
access token, the refresh exchange succeeds with a new pair. -/
def tm8Env : TokenManager.TMEnv := ⟨fun _ => 401, ⟨200, some "na", some "nr"⟩⟩

/-- Stored tokens for the C8 witness. -/
def tm8Tokens : TokenManager.StoredTokens := ⟨"a8", "r8"⟩

/-- Witness environment for C9: first call 401, refresh endpoint
answers 500. -/
def tm9Env : TokenManager.TMEnv := ⟨fun _ => 401, ⟨500, none, none⟩⟩

/-- Stored tokens for the C9 witness. -/
def tm9Tokens : TokenManager.StoredTokens := ⟨"a9", "r9"⟩

/-- The map used in the pigeonhole argument for C5: a length-21 byte
sequence (as a function) to its 20-byte HMAC-SHA1 digest (as a
function). -/
def hmacFinMap (key : List Nat) (f : Fin 21 → Fin 256) (i : Fin 20) : Fin 256 :=
  ⟨(hmacSha1 key (List.ofFn fun j => (f j).val)).getD i.val 0 % 256,
   Nat.mod_lt _ (by norm_num)⟩

/-! ## Reconciliation-engine lemmas -/

/-- The upload loop's `successful` marker is `None` exactly when no
`process_activity` call succeeded, provided the incoming state already
satisfies that relation. -/
theorem foldl_activityStep_inv (env : SyncEnv) (acts : List FitbitActivity) :
    ∀ st : LoopState, (st.successful = none ↔ st.succeeded = 0) →
      ((acts.foldl (activityStep env) st).successful = none ↔
        (acts.foldl (activityStep env) st).succeeded = 0) := by
  induction acts with
  | nil => intro st h; simpa using h
  | cons a tl ih =>
      intro st h
      simp only [List.foldl_cons]
      apply ih
      unfold activityStep
      split
      · exact h
      split
      · exact h
      cases hok : process_activity env a.logId <;> simp [h]

/-- `uploadLoop` starts from `⟨none, 0, 0⟩`, so the relation holds of
its result. -/
theorem uploadLoop_none_iff (env : SyncEnv) (acts : List FitbitActivity) :
    (uploadLoop env acts).successful = none ↔ (uploadLoop env acts).succeeded = 0 :=
  foldl_activityStep_inv env acts ⟨none, 0, 0⟩ (by simp)

/-- Behaviour of the post-fetch tail: the write happens exactly when
some upload succeeded; a write stores `latest`; no write leaves the
watermark at `wm`. -/
theorem runAfterFetch_spec (env : SyncEnv) (wm latest : Int) :
    ((runAfterFetch env wm latest).wrote = true ↔
      (runAfterFetch env wm latest).succeeded ≠ 0) ∧
    ((runAfterFetch env wm latest).wrote = true →
      (runAfterFetch env wm latest).watermark = latest) ∧
    ((runAfterFetch env wm latest).wrote = false →
      (runAfterFetch env wm latest).watermark = wm) := by
  unfold runAfterFetch
  split
  · simp
  split
  · next hnone =>
      have h0 := (uploadLoop_none_iff env (env.afterActivities (syncLowerBound env))).mp hnone
      simp [h0]
  · next hsome =>
      refine ⟨by simp; exact fun h0 => hsome ((uploadLoop_none_iff env _).mpr h0), by simp, by simp⟩

/-- Behaviour of a full run: the watermark row is updated exactly when
some upload in the pass succeeded; the value written is the start time
of the most recent activity observed at the beginning of the run (whose
fetch returned 200); without a write the watermark is unchanged. -/
theorem run_spec (env : SyncEnv) (wm : Int) :
    ((upload_latest_activities env wm).wrote = true ↔
      (upload_latest_activities env wm).succeeded ≠ 0) ∧
    ((upload_latest_activities env wm).wrote = true →
      env.mostRecentActivities.head?.map FitbitActivity.startTime =
        some (upload_latest_activities env wm).watermark ∧
      env.mostRecentStatus = 200) ∧
    ((upload_latest_activities env wm).wrote = false →
      (upload_latest_activities env wm).watermark = wm) := by
  unfold upload_latest_activities
  split
  · simp
  · next hstatus =>
    split
    · simp
    · next a tl heq =>
      split
      · simp
      · split
        · simp
        · refine ⟨(runAfterFetch_spec env wm a.startTime).1, fun hw => ?_,
            (runAfterFetch_spec env wm a.startTime).2.2⟩
          rw [(runAfterFetch_spec env wm a.startTime).2.1 hw, heq]
          exact ⟨rfl, by omega⟩

/-- When the most recent source activity's start time equals the
stored watermark, the run is a complete no-op: no Strava fetch, no
after-date fetch, no upload attempts, no write. -/
theorem run_stop_of_eq (env : SyncEnv) (wm : Int) (a : FitbitActivity)
    (hh : env.mostRecentActivities.head? = some a) (he : a.startTime = wm) :
    upload_latest_activities env wm = ⟨wm, false, 0, 0, false, none, []⟩ := by
  unfold upload_latest_activities
  split
  · rfl
  · split
    · rfl
    · next b tl heq =>
      rw [heq] at hh
      simp only [List.head?_cons, Option.some.injEq] at hh
      subst hh
      simp [he]

/-! ## Digest and base64 lemmas -/

/-- Every byte of a word's big-endian representation is below 256. -/
theorem wordToBytes_lt (w : Nat) : ∀ b ∈ wordToBytes w, b < 256 := by
  intro b hb
  simp only [wordToBytes, List.mem_cons, List.not_mem_nil, or_false] at hb
  rcases hb with h | h | h | h <;> subst h <;> omega

/-- SHA-1 digests are byte sequences. -/
theorem sha1_mem_lt (msg : List Nat) : ∀ b ∈ sha1 msg, b < 256 := by
  intro b hb
  simp only [sha1, List.mem_append, or_assoc] at hb
  rcases hb with h | h | h | h | h <;> exact wordToBytes_lt _ _ h

/-- SHA-1 digests have 20 bytes. -/
theorem sha1_length (msg : List Nat) : (sha1 msg).length = 20 := by
  simp [sha1, wordToBytes]

/-- HMAC-SHA1 digests are byte sequences. -/
theorem hmacSha1_mem_lt (key msg : List Nat) : ∀ b ∈ hmacSha1 key msg, b < 256 := by
  unfold hmacSha1
  exact sha1_mem_lt _

/-- HMAC-SHA1 digests have 20 bytes. -/
theorem hmacSha1_length (key msg : List Nat) : (hmacSha1 key msg).length = 20 := by
  unfold hmacSha1
  exact sha1_length _

/-- No alphabet character is the padding character. -/
theorem b64Char_ne_pad (n : Nat) (h : n < 64) : b64Char n ≠ '=' := by
  have h64 : ∀ i : Fin 64, b64Char i.val ≠ '=' := by decide
  exact h64 ⟨n, h⟩

/-- `b64val` inverts `b64Char` on 6-bit values. -/
theorem b64val_b64Char (n : Nat) (h : n < 64) : b64val (b64Char n) = n := by
  have h64 : ∀ i : Fin 64, b64val (b64Char i.val) = i.val := by decide
  exact h64 ⟨n, h⟩

/-- base64 encoding is injective on byte sequences. -/
theorem b64encodeList_inj (l1 l2 : List Nat) (h1 : ∀ x ∈ l1, x < 256)
    (h2 : ∀ x ∈ l2, x < 256) (he : b64encodeList l1 = b64encodeList l2) : l1 = l2 := by
  match l1, l2 with
  | [], [] => rfl
  | [], [c0] => simp [b64encodeList] at he
  | [], [c0, c1] => simp [b64encodeList] at he
  | [], c0 :: c1 :: c2 :: r2 => simp [b64encodeList] at he
  | [b0], [] => simp [b64encodeList] at he
  | [b0, b1], [] => simp [b64encodeList] at he
  | b0 :: b1 :: b2 :: r1, [] => simp [b64encodeList] at he
  | [b0], [c0] =>
      have hb0 : b0 < 256 := h1 b0 (by simp)
      have hc0 : c0 < 256 := h2 c0 (by simp)
      simp only [b64encodeList, List.cons.injEq, and_true] at he
      have n1 : b0 / 4 = c0 / 4 := by
        have := congrArg b64val he.1
        rwa [b64val_b64Char _ (by omega), b64val_b64Char _ (by omega)] at this
      have n2 : b0 % 4 * 16 = c0 % 4 * 16 := by
        have := congrArg b64val he.2
        rwa [b64val_b64Char _ (by omega), b64val_b64Char _ (by omega)] at this
      have : b0 = c0 := by omega
      rw [this]
  | [b0], [c0, c1] =>
      have hc1 : c1 < 256 := h2 c1 (by simp)
      simp only [b64encodeList, List.cons.injEq] at he
      exact absurd he.2.2.1.symm (b64Char_ne_pad _ (by omega))
  | [b0], c0 :: c1 :: c2 :: r2 =>
      have hc1 : c1 < 256 := h2 c1 (by simp)
      have hc2 : c2 < 256 := h2 c2 (by simp)
      simp only [b64encodeList, List.cons.injEq] at he
      exact absurd he.2.2.1.symm (b64Char_ne_pad _ (by omega))
  | [b0, b1], [c0] =>
      have hb1 : b1 < 256 := h1 b1 (by simp)
      simp only [b64encodeList, List.cons.injEq] at he
      exact absurd he.2.2.1 (b64Char_ne_pad _ (by omega))
  | b0 :: b1 :: b2 :: r1, [c0] =>
      have hb1 : b1 < 256 := h1 b1 (by simp)
      have hb2 : b2 < 256 := h1 b2 (by simp)
      simp only [b64encodeList, List.cons.injEq] at he
      exact absurd he.2.2.1 (b64Char_ne_pad _ (by omega))
  | [b0, b1], [c0, c1] =>
      have hb0 : b0 < 256 := h1 b0 (by simp)
      have hb1 : b1 < 256 := h1 b1 (by simp)
      have hc0 : c0 < 256 := h2 c0 (by simp)
      have hc1 : c1 < 256 := h2 c1 (by simp)
      simp only [b64encodeList, List.cons.injEq, and_true] at he
      have n1 : b0 / 4 = c0 / 4 := by
        have := congrArg b64val he.1
        rwa [b64val_b64Char _ (by omega), b64val_b64Char _ (by omega)] at this
      have n2 : b0 % 4 * 16 + b1 / 16 = c0 % 4 * 16 + c1 / 16 := by
        have := congrArg b64val he.2.1
        rwa [b64val_b64Char _ (by omega), b64val_b64Char _ (by omega)] at this
      have n3 : b1 % 16 * 4 = c1 % 16 * 4 := by
        have := congrArg b64val he.2.2
        rwa [b64val_b64Char _ (by omega), b64val_b64Char _ (by omega)] at this
      have e0 : b0 = c0 := by omega
      have e1 : b1 = c1 := by omega
      rw [e0, e1]
  | [b0, b1], c0 :: c1 :: c2 :: r2 =>
      have hc2 : c2 < 256 := h2 c2 (by simp)
      simp only [b64encodeList, List.cons.injEq] at he
      exact absurd he.2.2.2.1.symm (b64Char_ne_pad _ (by omega))
  | b0 :: b1 :: b2 :: r1, [c0, c1] =>
      have hb2 : b2 < 256 := h1 b2 (by simp)
      simp only [b64encodeList, List.cons.injEq] at he
      exact absurd he.2.2.2.1 (b64Char_ne_pad _ (by omega))
  | b0 :: b1 :: b2 :: r1, c0 :: c1 :: c2 :: r2 =>
      have hb0 : b0 < 256 := h1 b0 (by simp)
      have hb1 : b1 < 256 := h1 b1 (by simp)
      have hb2 : b2 < 256 := h1 b2 (by simp)
      have hc0 : c0 < 256 := h2 c0 (by simp)
      have hc1 : c1 < 256 := h2 c1 (by simp)
      have hc2 : c2 < 256 := h2 c2 (by simp)
      simp only [b64encodeList, List.cons.injEq] at he
      have n1 : b0 / 4 = c0 / 4 := by
        have := congrArg b64val he.1
        rwa [b64val_b64Char _ (by omega), b64val_b64Char _ (by omega)] at this
      have n2 : b0 % 4 * 16 + b1 / 16 = c0 % 4 * 16 + c1 / 16 := by
        have := congrArg b64val he.2.1
        rwa [b64val_b64Char _ (by omega), b64val_b64Char _ (by omega)] at this
      have n3 : b1 % 16 * 4 + b2 / 64 = c1 % 16 * 4 + c2 / 64 := by
        have := congrArg b64val he.2.2.1
        rwa [b64val_b64Char _ (by omega), b64val_b64Char _ (by omega)] at this
      have n4 : b2 % 64 = c2 % 64 := by
        have := congrArg b64val he.2.2.2.1
        rwa [b64val_b64Char _ (by omega), b64val_b64Char _ (by omega)] at this
      have e0 : b0 = c0 := by omega
      have e1 : b1 = c1 := by omega
      have e2 : b2 = c2 := by omega
      have er : r1 = r2 :=
        b64encodeList_inj r1 r2 (fun x hx => h1 x (by simp [hx]))
          (fun x hx => h2 x (by simp [hx])) he.2.2.2.2
      rw [e0, e1, e2, er]

/-- base64 strings of equal byte sequences of bytes determine the
bytes. -/
theorem b64encode_inj (l1 l2 : List Nat) (h1 : ∀ x ∈ l1, x < 256)
    (h2 : ∀ x ∈ l2, x < 256) (he : b64encode l1 = b64encode l2) : l1 = l2 :=
  b64encodeList_inj l1 l2 h1 h2 (congrArg String.data he)

set_option maxHeartbeats 1000000 in
/-- Pigeonhole: HMAC-SHA1 maps the `256 ^ 21` byte sequences of length
21 into the `256 ^ 20` possible 20-byte digests, so some two distinct
bodies collide under any key. -/
theorem hmacSha1_collision (key : List Nat) :
    ∃ b b' : List Nat, b ≠ b' ∧ (∀ x ∈ b, x < 256) ∧ (∀ x ∈ b', x < 256) ∧
      hmacSha1 key b = hmacSha1 key b' := by
  have hcard : Fintype.card (Fin 20 → Fin 256) < Fintype.card (Fin 21 → Fin 256) := by
    simp only [Fintype.card_fun, Fintype.card_fin]
    exact Nat.pow_lt_pow_right (by norm_num) (by norm_num)
  obtain ⟨f, g, hfg, hF⟩ := Fintype.exists_ne_map_eq_of_card_lt (hmacFinMap key) hcard
  refine ⟨List.ofFn (fun j => (f j).val), List.ofFn (fun j => (g j).val), ?_, ?_, ?_, ?_⟩
  · intro hbb
    apply hfg
    have hfun := List.ofFn_inj.mp hbb
    funext j
    exact Fin.ext (congrFun hfun j)
  · intro x hx
    obtain ⟨j, rfl⟩ := Set.mem_range.mp ((List.mem_ofFn _ _).mp hx)
    exact (f j).isLt
  · intro x hx
    obtain ⟨j, rfl⟩ := Set.mem_range.mp ((List.mem_ofFn _ _).mp hx)
    exact (g j).isLt
  · have l1 := hmacSha1_length key (List.ofFn fun j => (f j).val)
    have l2 := hmacSha1_length key (List.ofFn fun j => (g j).val)
    apply List.ext_getElem (by rw [l1, l2])
    intro i hi1 hi2
    have hi : i < 20 := by omega
    have hv := congrArg Fin.val (congrFun hF ⟨i, hi⟩)
    simp only [hmacFinMap] at hv
    rw [List.getD_eq_getElem _ _ hi1, List.getD_eq_getElem _ _ hi2] at hv
    have m1 : (hmacSha1 key (List.ofFn fun j => (f j).val))[i] < 256 :=
      hmacSha1_mem_lt _ _ _ (List.getElem_mem _)
    have m2 : (hmacSha1 key (List.ofFn fun j => (g j).val))[i] < 256 :=
      hmacSha1_mem_lt _ _ _ (List.getElem_mem _)
    rw [Nat.mod_eq_of_lt m1, Nat.mod_eq_of_lt m2] at hv
    exact hv

/-! ## Webhook counting lemmas -/

/-- Filtering the `None` entries out of a list of optional ids keeps
the occurrence count of each id. -/
theorem count_filterMap_id (l : List (Option String)) (u : String) :
    (l.filterMap id).count u = l.count (some u) := by
  induction l with
  | nil => rfl
  | cons a tl ih =>
      cases a with
      | none => simpa [List.filterMap_cons, List.count_cons] using ih
      | some x => simp [List.filterMap_cons, List.count_cons, ih]

/-- Occurrence count of an id after deduplication: 1 when present, else 0. -/
theorem count_dedup_opt (l : List (Option String)) (a : Option String) :
    l.dedup.count a = if a ∈ l then 1 else 0 := by
  induction l with
  | nil => rfl
  | cons x tl ih =>
      by_cases hx : x ∈ tl
      · rw [List.dedup_cons_of_mem hx, ih]
        by_cases hax : a = x
        · simp [hax, hx]
        · simp [List.mem_cons, hax]
      · rw [List.dedup_cons_of_not_mem hx, List.count_cons, ih]
        by_cases hax : a = x
        · subst hax
          simp [hx]
        · simp [List.mem_cons, hax, Ne.symm hax]

/-- The number of tasks scheduled for user `u` is 1 when some batch
entry matches the activities/user filter with owner `u`, and 0
otherwise. -/
theorem scheduled_tasks_count (msgs : List WebhookMessage) (u : String) :
    (scheduled_tasks msgs).count u =
      if msgs.any (fun m => m.collectionType == some "activities" &&
          m.ownerType == some "user" && m.ownerId == some u) then 1 else 0 := by
  unfold scheduled_tasks notification_ids
  rw [count_filterMap_id, count_dedup_opt]
  have hiff : (some u ∈ msgs.filterMap fun m =>
      if m.collectionType = some "activities" ∧ m.ownerType = some "user"
      then some m.ownerId else none) ↔
      msgs.any (fun m => m.collectionType == some "activities" &&
        m.ownerType == some "user" && m.ownerId == some u) = true := by
    rw [List.mem_filterMap, List.any_eq_true]
    constructor
    · rintro ⟨m, hm, hf⟩
      refine ⟨m, hm, ?_⟩
      by_cases hc : m.collectionType = some "activities" ∧ m.ownerType = some "user"
      · rw [if_pos hc] at hf
        simp [hc.1, hc.2, Option.some.inj hf]
      · rw [if_neg hc] at hf
        cases hf
    · rintro ⟨m, hm, hb⟩
      simp only [Bool.and_eq_true, beq_iff_eq] at hb
      exact ⟨m, hm, by rw [if_pos ⟨hb.1.1, hb.1.2⟩, hb.2]⟩
  exact if_congr hiff rfl rfl

/-- `database_create_user` completes without raising only for a user
whose row already exists, and then leaves the store unchanged. -/
theorem create_ok_implies_existing (db : Registration.DB) (fid : String)
    (q : Registration.DB × Bool)
    (h : Registration.database_create_user db fid = .ok q) :
    Registration.database_user_check db fid = true ∧ q.1 = db := by
  unfold Registration.database_create_user at h
  split at h
  · next hc =>
      injection h with h2
      exact ⟨hc, by rw [← h2]⟩
  · cases h

/-- The Fitbit verification route reaches its Strava redirect only for
a user whose `user_tokens` row already existed before the request: the
schema's not-null constraint prevents it from ever creating one. -/
theorem fitbit_oauth_verify_requires_existing (env : Registration.FitbitVerifyEnv)
    (db : Registration.DB) :
    ∀ fid, (Registration.fitbit_oauth_verify env db).1 = .redirectStrava fid →
      Registration.database_user_check db fid = true := by
  cases hE : Registration.fitbit_oauth_verify env db with
  | mk out db2 =>
    unfold Registration.fitbit_oauth_verify at hE
    repeat' split at hE
    all_goals injection hE with h1 h2
    all_goals subst h1
    all_goals subst h2
    all_goals try dsimp only
    all_goals try exact fun fid h => Registration.FlowOutcome.noConfusion h
    intro fid h
    injection h with h3
    subst h3
    exact (create_ok_implies_existing db _ _ (by assumption)).1

/-! ## String maximum lemmas -/

/-- `pymax` dominates its first argument. -/
theorem le_pymax_left (a b : String) : a ≤ pymax a b := by
  unfold pymax
  split
  · exact le_of_lt ‹_›
  · exact le_refl a

/-- `pymax` dominates its second argument. -/
theorem le_pymax_right (a b : String) : b ≤ pymax a b := by
  unfold pymax
  split
  · exact le_refl b
  · exact le_of_not_lt ‹_›

/-- `pymax` returns one of its arguments. -/
theorem pymax_eq_or (a b : String) : pymax a b = a ∨ pymax a b = b := by
  unfold pymax
  split
  · exact Or.inr rfl
  · exact Or.inl rfl

/-- The sync lower bound dominates the 3-day horizon, dominates the
destination's most recent start time when one exists, equals one of the
two, and falls back to the horizon when the destination is empty. -/
theorem syncLowerBound_spec (env : SyncEnv) :
    env.todayMinus3 ≤ syncLowerBound env ∧
    (∀ s l, env.stravaStartDates = s :: l →
      rstripZ s ≤ syncLowerBound env ∧
      (syncLowerBound env = env.todayMinus3 ∨ syncLowerBound env = rstripZ s)) ∧
    (env.stravaStartDates = [] → syncLowerBound env = env.todayMinus3) := by
  unfold syncLowerBound
  split
  · next heq =>
      refine ⟨le_refl _, ?_, fun _ => rfl⟩
      intro s l hsl
      rw [heq] at hsl
      cases hsl
  · next s l heq =>
      refine ⟨le_pymax_left _ _, ?_, ?_⟩
      · intro s2 l2 hsl
        rw [heq] at hsl
        injection hsl with h1 h2
        subst h1
        exact ⟨le_pymax_right _ _, pymax_eq_or _ _⟩
      · intro hnil
        rw [heq] at hnil
        cases hnil

/-- All three exits of `runAfterFetch` record the sync lower bound as
the `afterDate` used and the corresponding response list. -/
theorem runAfterFetch_afterDate (env : SyncEnv) (wm latest : Int) :
    (runAfterFetch env wm latest).afterDateUsed = some (syncLowerBound env) ∧
    (runAfterFetch env wm latest).fetched = env.afterActivities (syncLowerBound env) := by
  unfold runAfterFetch
  split
  · exact ⟨rfl, rfl⟩
  split
  · exact ⟨rfl, rfl⟩
  · exact ⟨rfl, rfl⟩

/-- Whenever a run reaches the after-date fetch, the date passed is
the sync lower bound, and the loop's input is that fetch's response. -/
theorem run_afterDate_spec (env : SyncEnv) (wm : Int) :
    ∀ d, (upload_latest_activities env wm).afterDateUsed = some d →
      d = syncLowerBound env ∧
      (upload_latest_activities env wm).fetched = env.afterActivities (syncLowerBound env) := by
  unfold upload_latest_activities
  split
  · intro d hd; cases hd
  split
  · intro d hd; cases hd
  split
  · intro d hd; cases hd
  split
  · intro d hd; cases hd
  · intro d hd
    rw [(runAfterFetch_afterDate env wm _).1] at hd
    exact ⟨(Option.some.inj hd).symm, (runAfterFetch_afterDate env wm _).2⟩

/-! ## Claim theorems -/

/-- C1: in every `upload_latest_activities` run, the persisted
watermark `fitbit_latest_activity_date` is written iff at least one
activity upload in the pass succeeded, and the value written is the
start time of the most recent source activity observed at the start of
the run — not that of the last successfully uploaded activity; hence a
later activity's failed export fetch or failed upload cannot prevent
the write. -/
theorem claim_C1_watermark_write (env : SyncEnv) (wm : Int) :
    ((upload_latest_activities env wm).wrote = true ↔
      (upload_latest_activities env wm).succeeded ≠ 0) ∧
    ((upload_latest_activities env wm).wrote = true →
      env.mostRecentActivities.head?.map FitbitActivity.startTime =
        some (upload_latest_activities env wm).watermark) ∧
    ((upload_latest_activities env wm).wrote = false →
      (upload_latest_activities env wm).watermark = wm) :=
  ⟨(run_spec env wm).1, fun h => ((run_spec env wm).2.1 h).1, (run_spec env wm).2.2⟩

/-- Witness for C1 at `c1Env`: the upload of the activity with start 3
succeeds, the later activity's export fetch fails, and the watermark
written is the observed most-recent start 7 (not 3). -/
theorem claim_C1_witness :
    (upload_latest_activities c1Env 0).wrote = true ∧
    c1Env.mostRecentActivities.head?.map FitbitActivity.startTime =
      some (upload_latest_activities c1Env 0).watermark ∧
    (upload_latest_activities c1Env 0).watermark = 7 ∧
    (upload_latest_activities c1Env 0).succeeded = 1 :=
  ⟨by decide, (claim_C1_watermark_write c1Env 0).2.1 (by decide), by decide, by decide⟩

/-- C2 (counterexample): at `c2Env`, whose most recent source activity
(start 5) is older than the stored watermark 10 and uploads
successfully, the run writes 5 — strictly smaller than the stored
value, so the watermark is not unconditionally non-decreasing. -/
theorem claim_C2_counterexample :
    (upload_latest_activities c2Env 10).wrote = true ∧
    (upload_latest_activities c2Env 10).watermark < 10 := by decide

/-- C2 (amended): provided the most recent source activity observed at
the start of the run is not older than the stored watermark — the
provider behaviour the spec says the system assumes — a run never
moves the watermark down, and the engine writes it only after at least
one confirmed successful upload.  Appending runs preserves this, so
watermark histories are non-decreasing under the same assumption. -/
theorem claim_C2_monotone (env : SyncEnv) (wm : Int)
    (h : wm ≤ (env.mostRecentActivities.head?.map FitbitActivity.startTime).getD wm) :
    wm ≤ (upload_latest_activities env wm).watermark ∧
    ((upload_latest_activities env wm).wrote = true →
      (upload_latest_activities env wm).succeeded ≠ 0) := by
  constructor
  · by_cases hw : (upload_latest_activities env wm).wrote = true
    · obtain ⟨hmap, -⟩ := (run_spec env wm).2.1 hw
      rw [hmap] at h
      simpa using h
    · rw [(run_spec env wm).2.2 (by simpa using hw)]
  · exact fun hw => (run_spec env wm).1.mp hw

/-- Witness for the amended C2: at `c2wEnv` (fresh activity, start 7,
upload succeeds) a run from watermark 0 moves it up to 7. -/
theorem claim_C2_witness :
    (0 : Int) ≤ (upload_latest_activities c2wEnv 0).watermark ∧
    (upload_latest_activities c2wEnv 0).watermark = 7 :=
  ⟨(claim_C2_monotone c2wEnv 0 (by decide)).1, by decide⟩

/-- C3: running `upload_latest_activities` twice against an unchanged
remote environment uploads nothing on the second run, and when the most
recent source activity's start time equals the stored watermark the run
stops at that check: no Strava fetch, no after-date fetch, no upload
attempt, no write. -/
theorem claim_C3_idempotent (env : SyncEnv) (wm : Int) :
    (upload_latest_activities env
      (upload_latest_activities env wm).watermark).succeeded = 0 ∧
    (∀ a : FitbitActivity, env.mostRecentActivities.head? = some a →
      a.startTime = wm →
      upload_latest_activities env wm = ⟨wm, false, 0, 0, false, none, []⟩) := by
  constructor
  · by_cases hw : (upload_latest_activities env wm).wrote = true
    · obtain ⟨hmap, -⟩ := (run_spec env wm).2.1 hw
      cases hh : env.mostRecentActivities.head? with
      | none => rw [hh] at hmap; cases hmap
      | some a =>
          rw [hh] at hmap
          simp only [Option.map_some', Option.some.injEq] at hmap
          rw [run_stop_of_eq env _ a hh hmap]
    · have hw2 : (upload_latest_activities env wm).wrote = false := by
        simpa using hw
      rw [(run_spec env wm).2.2 hw2]
      by_contra hne
      exact absurd ((run_spec env wm).1.mpr hne) (by simp [hw2])
  · intro a hh he
    exact run_stop_of_eq env wm a hh he

/-- Witness for C3 at `c3Env`: with the watermark equal to the most
recent activity's start time 5 the run is a no-op, and a second run
after a first one from watermark 0 performs zero successful uploads. -/
theorem claim_C3_witness :
    upload_latest_activities c3Env 5 = ⟨5, false, 0, 0, false, none, []⟩ ∧
    (upload_latest_activities c3Env
      (upload_latest_activities c3Env 0).watermark).succeeded = 0 :=
  ⟨(claim_C3_idempotent c3Env 5).2 ⟨1, "tracker", ["GPS"], "2024-01-01T10:00:00", 5⟩
      (by decide) (by decide),
   (claim_C3_idempotent c3Env 0).1⟩

/-- C4: the claim — a `user_tokens` row (with its 1:1 `user_activity`
row) exists only after both provider authorization flows completed,
absence being a valid non-error state — is the spec's evident intent,
but the code cannot create the record at all: `init_db.py` declares
the four token columns of `user_tokens` `NOT NULL` with no defaults,
so `database_create_user`'s `INSERT INTO user_tokens (fitbit_id)` for
a first-time user raises a not-null violation and the Fitbit
verification request dies before the Strava flow is reached.  The
route's Strava redirect is reachable only when the row already
existed, and at the failing input (fresh user `u1`, successful Fitbit
exchange, empty store) the run ends in the constraint violation with
the store unchanged and no row for `u1`. -/
theorem claim_C4_schema_violation :
    (∀ env db fid, (Registration.fitbit_oauth_verify env db).1 = .redirectStrava fid →
      Registration.database_user_check db fid = true) ∧
    (Registration.fitbit_oauth_verify c4Env Registration.emptyDB).1 = .integrityError ∧
    (Registration.fitbit_oauth_verify c4Env Registration.emptyDB).2 = Registration.emptyDB ∧
    Registration.database_user_check
      (Registration.fitbit_oauth_verify c4Env Registration.emptyDB).2 "u1" = false :=
  ⟨fun env db => fitbit_oauth_verify_requires_existing env db, by decide, rfl, by decide⟩

/-- Witness for C4: from a store whose `u1` row pre-exists, the
successful Fitbit exchange of `c4Env` does reach the Strava redirect —
and the row indeed existed beforehand, as the theorem requires. -/
theorem claim_C4_witness :
    Registration.database_user_check c4dbExisting "u1" = true ∧
    (Registration.fitbit_oauth_verify c4Env c4dbExisting).1 = .redirectStrava "u1" :=
  ⟨claim_C4_schema_violation.1 c4Env c4dbExisting "u1" (by decide), by decide⟩

/-- C5 (counterexample): it is not true that any change to the body
flips a previously-true verification result to false: HMAC-SHA1 maps
infinitely many bodies onto 20-byte digests, so (by pigeonhole) two
distinct bodies share a digest and both verify against the same
header. -/
theorem claim_C5_counterexample :
    ¬ (∀ (secret body body2 : List Nat) (hdr : String), body ≠ body2 →
        fitbit_validate_signature secret body (some hdr) = true →
        fitbit_validate_signature secret body2 (some hdr) = false) := by
  intro H
  obtain ⟨b, b2, hne, -, -, hcol⟩ := hmacSha1_collision [38]
  have h1 : fitbit_validate_signature [] b
      (some (b64encode (hmacSha1 [38] b))) = true := by
    simp [fitbit_validate_signature]
  have h3 : fitbit_validate_signature [] b2
      (some (b64encode (hmacSha1 [38] b))) = true := by
    simp [fitbit_validate_signature]
    rw [hcol]
  have h2 := H [] b b2 _ hne h1
  simp [h3] at h2

/-- C5 (amended): verification succeeds exactly when the header equals
the base64 HMAC-SHA1 digest of the raw body keyed by the secret
followed by `&`; a missing header yields false rather than an
exception; any change to the header flips a true result to false; and
any change to the body that changes its HMAC digest flips a true
result to false (digest-colliding bodies being the sole exception). -/
theorem claim_C5_verify (secret body : List Nat) (header : Option String) :
    (fitbit_validate_signature secret body header = true ↔
      header = some (b64encode (hmacSha1 (secret ++ [38]) body))) ∧
    fitbit_validate_signature secret body none = false ∧
    (∀ h2 : Option String, header ≠ h2 →
      fitbit_validate_signature secret body header = true →
      fitbit_validate_signature secret body h2 = false) ∧
    (∀ body2 : List Nat,
      hmacSha1 (secret ++ [38]) body2 ≠ hmacSha1 (secret ++ [38]) body →
      fitbit_validate_signature secret body header = true →
      fitbit_validate_signature secret body2 header = false) := by
  have hiff : ∀ (b : List Nat) (hh : Option String),
      fitbit_validate_signature secret b hh = true ↔
        hh = some (b64encode (hmacSha1 (secret ++ [38]) b)) := by
    intro b hh
    cases hh with
    | none => simp [fitbit_validate_signature]
    | some s =>
        simp only [fitbit_validate_signature, beq_iff_eq, Option.some.injEq]
        exact eq_comm
  refine ⟨hiff body header, by simp [fitbit_validate_signature], ?_, ?_⟩
  · intro h2 hne htrue
    rcases Bool.eq_false_or_eq_true (fitbit_validate_signature secret body h2) with hb | hb
    · exact absurd (((hiff body header).mp htrue).trans
        ((hiff body h2).mp hb).symm) hne
    · exact hb
  · intro body2 hneq htrue
    rcases Bool.eq_false_or_eq_true (fitbit_validate_signature secret body2 header) with hb | hb
    · have e1 := (hiff body header).mp htrue
      have e2 := (hiff body2 header).mp hb
      rw [e1] at e2
      exact absurd (b64encode_inj _ _ (hmacSha1_mem_lt _ _) (hmacSha1_mem_lt _ _)
        (Option.some.inj e2)).symm hneq
    · exact hb

/-- Witness for the amended C5: the digest header of the empty body
verifies, the missing header does not, and changing the header of a
true result to the missing header flips it to false. -/
theorem claim_C5_witness :
    fitbit_validate_signature [] []
      (some (b64encode (hmacSha1 ([] ++ [38]) []))) = true ∧
    fitbit_validate_signature [] [] none = false :=
  ⟨(claim_C5_verify [] [] (some (b64encode (hmacSha1 ([] ++ [38]) [])))).1.mpr rfl,
   (claim_C5_verify [] [] none).2.1⟩

/-- C6: a batch accepted with a valid signature is answered 204 and
schedules exactly one reconciliation task per distinct non-null
`ownerId` among the entries with `collectionType = "activities"` and
`ownerType = "user"` — one task for a user however often the batch
repeats them, none for users only mentioned in non-matching entries. -/
theorem claim_C6_one_task_per_user (secret body : List Nat) (header : Option String)
    (msgs : List WebhookMessage) (u : String)
    (hsig : fitbit_validate_signature secret body header = true) :
    (webhook_post secret body header msgs).2 = 204 ∧
    (webhook_post secret body header msgs).1.count u =
      (if msgs.any (fun m => m.collectionType == some "activities" &&
          m.ownerType == some "user" && m.ownerId == some u) then 1 else 0) := by
  unfold webhook_post
  rw [if_pos hsig]
  exact ⟨rfl, scheduled_tasks_count msgs u⟩

/-- Witness for C6: the batch `c6msgs` (two `activities`/`user` entries
for `U1`, one `foods` entry for `U2`, one null owner), delivered with a
valid signature, is answered 204 with exactly one task for `U1` and
none for `U2`. -/
theorem claim_C6_witness :
    (webhook_post [] [] (some (b64encode (hmacSha1 ([] ++ [38]) []))) c6msgs).2 = 204 ∧
    (webhook_post [] [] (some (b64encode (hmacSha1 ([] ++ [38]) []))) c6msgs).1.count "U1" = 1 ∧
    (webhook_post [] [] (some (b64encode (hmacSha1 ([] ++ [38]) []))) c6msgs).1.count "U2" = 0 := by
  have hsig : fitbit_validate_signature [] []
      (some (b64encode (hmacSha1 ([] ++ [38]) []))) = true := by
    simp [fitbit_validate_signature]
  exact ⟨(claim_C6_one_task_per_user [] [] _ c6msgs "U1" hsig).1,
    ((claim_C6_one_task_per_user [] [] _ c6msgs "U1" hsig).2).trans (by decide),
    ((claim_C6_one_task_per_user [] [] _ c6msgs "U2" hsig).2).trans (by decide)⟩

/-- C7: whenever a reconciliation run reaches the after-date fetch, the
lower bound it passes is at least the 3-day horizon, at least the
destination's most recent start time (trailing `Z` stripped) when the
destination has activities, equal to one of the two (their maximum),
and exactly the horizon when the destination is empty; and when the
provider honours the strictly-after contract of `afterDate`, every
activity the pass iterates lies strictly after the bound. -/
theorem claim_C7_bounded_backfill (env : SyncEnv) (wm : Int) (d : String)
    (hd : (upload_latest_activities env wm).afterDateUsed = some d)
    (hapi : ∀ a ∈ env.afterActivities d, d < a.startTimeIso) :
    env.todayMinus3 ≤ d ∧
    (∀ s l, env.stravaStartDates = s :: l →
      rstripZ s ≤ d ∧ (d = env.todayMinus3 ∨ d = rstripZ s)) ∧
    (env.stravaStartDates = [] → d = env.todayMinus3) ∧
    (upload_latest_activities env wm).fetched = env.afterActivities d ∧
    (∀ a ∈ (upload_latest_activities env wm).fetched, d < a.startTimeIso) := by
  obtain ⟨hdb, hfetch⟩ := run_afterDate_spec env wm d hd
  subst hdb
  obtain ⟨h1, h2, h3⟩ := syncLowerBound_spec env
  exact ⟨h1, h2, h3, hfetch, fun a ha => hapi a (hfetch ▸ ha)⟩

/-- Witness for C7 at `c7Env`: the bound used is the destination's most
recent start time `2024-01-05T00:00:00` (the `Z` stripped, later than
the horizon `2024-01-03`), and the fetched activities are the ones the
provider returns for it. -/
theorem claim_C7_witness :
    c7Env.todayMinus3 ≤ "2024-01-05T00:00:00" ∧
    (upload_latest_activities c7Env 0).fetched =
      c7Env.afterActivities "2024-01-05T00:00:00" := by
  have hlt1 : ("2024-01-03" : String) < "2024-01-05T00:00:00" := by
    rw [String.lt_iff_toList_lt]
    decide
  have hsl : syncLowerBound c7Env = "2024-01-05T00:00:00" := by
    show pymax c7Env.todayMinus3 (rstripZ "2024-01-05T00:00:00Z") = "2024-01-05T00:00:00"
    rw [show rstripZ "2024-01-05T00:00:00Z" = "2024-01-05T00:00:00" by decide,
      show c7Env.todayMinus3 = "2024-01-03" from rfl]
    unfold pymax
    rw [if_pos hlt1]
  have hrun : upload_latest_activities c7Env 0 = runAfterFetch c7Env 0 7 := rfl
  have hd : (upload_latest_activities c7Env 0).afterDateUsed = some "2024-01-05T00:00:00" := by
    rw [hrun, (runAfterFetch_afterDate c7Env 0 7).1, hsl]
  have hapi : ∀ a ∈ c7Env.afterActivities "2024-01-05T00:00:00",
      "2024-01-05T00:00:00" < a.startTimeIso := by
    intro a ha
    have ha2 : a ∈ [(⟨3, "tracker", ["GPS"], "2024-01-06T10:00:00", 7⟩ : FitbitActivity)] := ha
    rw [List.mem_singleton] at ha2
    subst ha2
    rw [String.lt_iff_toList_lt]
    decide
  exact ⟨(claim_C7_bounded_backfill c7Env 0 "2024-01-05T00:00:00" hd hapi).1,
    (claim_C7_bounded_backfill c7Env 0 "2024-01-05T00:00:00" hd hapi).2.2.2.1⟩

/-- C8: when the wrapped call first returns 401, the decorator performs
exactly one refresh exchange; when that exchange succeeds it persists
the new pair and re-executes the call exactly once — with the new
access token — and returns that second result as is, even when it is
401 again: call and refresh counters never exceed 2 and 1. -/
theorem claim_C8_single_refresh (env : TokenManager.TMEnv) (t : TokenManager.StoredTokens)
    (h401 : env.callStatus t.access = 401) :
    (TokenManager.refresh_api_call env t).refreshAttempts = 1 ∧
    (∀ t2, TokenManager.refresh_tokens env = .ok t2 →
      (TokenManager.refresh_api_call env t).persisted = true ∧
      (TokenManager.refresh_api_call env t).tokens = t2 ∧
      (TokenManager.refresh_api_call env t).callCount = 2 ∧
      (TokenManager.refresh_api_call env t).result = .ok (env.callStatus t2.access)) ∧
    (TokenManager.refresh_api_call env t).callCount ≤ 2 ∧
    (TokenManager.refresh_api_call env t).refreshAttempts ≤ 1 := by
  unfold TokenManager.refresh_api_call
  rw [if_pos h401]
  cases hr : TokenManager.refresh_tokens env with
  | error e =>
      refine ⟨rfl, ?_, Nat.le_succ 1, Nat.le_refl 1⟩
      intro t2 h2
      exact Except.noConfusion h2
  | ok t2 =>
      refine ⟨rfl, ?_, Nat.le_refl 2, Nat.le_refl 1⟩
      intro t3 h3
      injection h3 with h3
      subst h3
      exact ⟨rfl, rfl, rfl, rfl⟩

/-- Witness for C8 at `tm8Env`: both call executions return 401, the
refresh succeeds; exactly one refresh, exactly two calls, new pair
persisted, and the second 401 is returned without another cycle. -/
theorem claim_C8_witness :
    (TokenManager.refresh_api_call tm8Env tm8Tokens).refreshAttempts = 1 ∧
    (TokenManager.refresh_api_call tm8Env tm8Tokens).persisted = true ∧
    (TokenManager.refresh_api_call tm8Env tm8Tokens).callCount = 2 ∧
    (TokenManager.refresh_api_call tm8Env tm8Tokens).result = .ok 401 := by
  have h := claim_C8_single_refresh tm8Env tm8Tokens rfl
  have h2 := h.2.1 ⟨"na", "nr"⟩ rfl
  exact ⟨h.1, h2.1, h2.2.2.1, h2.2.2.2⟩

/-- C9: when the refresh exchange fails — non-200 token endpoint
status, or a 200 response missing `access_token` or `refresh_token` —
the invocation raises a `CredentialRefreshFailure`, the wrapped call is
not re-executed, and the stored stale tokens are not overwritten. -/
theorem claim_C9_refresh_failure (env : TokenManager.TMEnv) (t : TokenManager.StoredTokens)
    (h401 : env.callStatus t.access = 401)
    (hfail : env.refreshResp.status ≠ 200 ∨ env.refreshResp.accessField = none ∨
      env.refreshResp.refreshField = none) :
    (∃ e, (TokenManager.refresh_api_call env t).result = .error e) ∧
    (TokenManager.refresh_api_call env t).tokens = t ∧
    (TokenManager.refresh_api_call env t).callCount = 1 ∧
    (TokenManager.refresh_api_call env t).persisted = false := by
  have herr : ∃ e, TokenManager.refresh_tokens env = .error e := by
    unfold TokenManager.refresh_tokens TokenManager.update_tokens
    rcases hfail with h | h | h
    · rw [if_neg h]
      exact ⟨_, rfl⟩
    · split
      · rw [h]
        exact ⟨_, rfl⟩
      · exact ⟨_, rfl⟩
    · split
      · cases ha : env.refreshResp.accessField with
        | none => exact ⟨_, rfl⟩
        | some a =>
            rw [h]
            exact ⟨_, rfl⟩
      · exact ⟨_, rfl⟩
  obtain ⟨e, he⟩ := herr
  unfold TokenManager.refresh_api_call
  rw [if_pos h401, he]
  exact ⟨⟨e, rfl⟩, rfl, rfl, rfl⟩

/-- Witness for C9 at `tm9Env`: call 401, refresh endpoint 500 — the
tokens survive, the call is not retried, nothing is persisted. -/
theorem claim_C9_witness :
    (TokenManager.refresh_api_call tm9Env tm9Tokens).tokens = tm9Tokens ∧
    (TokenManager.refresh_api_call tm9Env tm9Tokens).callCount = 1 ∧
    (TokenManager.refresh_api_call tm9Env tm9Tokens).persisted = false := by
  have h := claim_C9_refresh_failure tm9Env tm9Tokens rfl (Or.inl (by decide))
  exact ⟨h.2.1, h.2.2.1, h.2.2.2⟩

/-- C10: the GET verification branch of `webhook_link` succeeds (204)
exactly when the `verify` query parameter equals the configured
verification code; in particular, with the parameter absent and the
environment variable unset both sides are `None`, the equality holds,
and the endpoint answers 204 rather than 404. -/
theorem claim_C10_get_verification :
    (∀ v e : Option String, webhook_verification v e = 204 ↔ v = e) ∧
    webhook_verification none none = 204 ∧ webhook_verification none none ≠ 404 := by
  refine ⟨fun v e => ?_, rfl, by decide⟩
  unfold webhook_verification
  split
  · next h => simp [h]
  · next h => simp [h]

/-- Witness for C10: a matching code is answered 204, as is the
absent/unset pair. -/
theorem claim_C10_witness :
    webhook_verification (some "code") (some "code") = 204 ∧
    webhook_verification none none = 204 :=
  ⟨(claim_C10_get_verification.1 (some "code") (some "code")).mpr rfl,
   claim_C10_get_verification.2.1⟩
